import Mathlib

/-!
Shallow embedding of the quiz-server repository (NestJS/TypeScript) in Lean 4.

Numbers: JavaScript `number` arithmetic is modelled over `ℚ` (the concrete
values exercised by the program and by the theorems below are exactly
representable).  `Math.round x` is JS round-half-up, which coincides with
Mathlib's `round` (`round x = ⌊x + 1/2⌋`).  `Math.pow x 0.7`
(tug-of-war.service.ts line 110) is irrational-valued on most inputs and has
no exact `ℚ` counterpart, so every definition that reaches it is
parameterised by an arbitrary function `powQ : ℚ → ℚ`; concrete evaluations
below only ever exercise code paths on which the value of `powQ` is
irrelevant (the `minScore == 0` branch, or a zero sign factor).

Identifiers: entity ids, PINs and user ids (uuid/strings in the source) are
modelled as `ℕ`; `Team` (enum 1 | 2), `QuizStatus` and roles as inductives.
The TypeORM repositories are modelled as a `Store` of lists, `findOne` as
`List.find?` and `save` as an id-keyed update.  Timestamps (`Date.now()`)
are `ℤ` milliseconds passed in explicitly.
-/

set_option maxRecDepth 8000

set_option linter.unusedVariables false

attribute [local semireducible] Rat.add Rat.sub Rat.mul Rat.inv Rat.ofScientific

deriving instance DecidableEq for Except

namespace QuizServer

/-- JS `Math.max` on two numbers.  (Defined by an explicit comparison, in
kernel-evaluable form; equal to Mathlib's `max`, see `jsMax_eq`.) -/
def jsMax (a b : ℚ) : ℚ := if a ≤ b then b else a

/-- JS `Math.min` on two numbers (equal to Mathlib's `min`). -/
def jsMin (a b : ℚ) : ℚ := if a ≤ b then a else b

/-- JS `Math.abs` (equal to Mathlib's `|·|`). -/
def jsAbs (x : ℚ) : ℚ := if x < 0 then -x else x

/-- JS `Math.round x` (round half toward +infinity), `⌊x + 1/2⌋`; stated
via the kernel-evaluable `Rat.floor` and equal to Mathlib's `round`
(see `jsRound_eq`). -/
def jsRound (x : ℚ) : ℤ := (x + 1 / 2).floor

/-- JS `Math.round (x * 100) / 100` — round to two decimals, used for the
tug position (line 116) and the average speed (line 61). -/
def round2 (x : ℚ) : ℚ := ((jsRound (x * 100) : ℤ) : ℚ) / 100

/-- JS `Math.sign`. -/
def jsSign (x : ℚ) : ℚ := if 0 < x then 1 else if x < 0 then -1 else 0

/-- Quiz lifecycle status (`QuizStatus` enum, quiz.entity.ts lines 7-11). -/
inductive QuizStatus
  | created
  | started
  | finished
  deriving DecidableEq

/-- Position of a status in the forward order created → started → finished. -/
def statusRank : QuizStatus → ℕ
  | QuizStatus.created => 0
  | QuizStatus.started => 1
  | QuizStatus.finished => 2

/-- Team enum (participant.entity.ts: TEAM_1 = 1, TEAM_2 = 2). -/
inductive Team
  | team1
  | team2
  deriving DecidableEq, BEq

/-- Quiz row (quiz.entity.ts).  `title`/timestamps carry no semantics for
the verified properties and are omitted. -/
structure QuizRec where
  id : ℕ
  pin : ℕ
  status : QuizStatus
  creatorId : ℕ
  deriving DecidableEq

/-- Question row (question.entity.ts).  `options` holds the ids of the
question's AnswerOption rows; `text` is omitted. -/
structure QuestionRec where
  id : ℕ
  quizId : ℕ
  timeSeconds : ℕ
  correctAnswerId : Option ℕ
  options : List ℕ
  order : ℕ
  deriving DecidableEq

/-- Participant row (participant.entity.ts); `name`/`joinedAt` omitted. -/
structure ParticipantRec where
  id : ℕ
  team : Team
  quizId : ℕ
  pin : ℕ
  deriving DecidableEq

/-- Answer row (answer.entity.ts).  `responseTimeMs` is nullable in the
schema (`{ type: 'int', nullable: true }`), hence `Option`. -/
structure AnswerRec where
  participantId : ℕ
  questionId : ℕ
  selectedOptionId : ℕ
  isCorrect : Bool
  responseTimeMs : Option ℚ
  deriving DecidableEq

/-- The persistent store: the TypeORM repositories the services read and
write. -/
structure Store where
  quizzes : List QuizRec
  questions : List QuestionRec
  participants : List ParticipantRec
  answers : List AnswerRec
  deriving DecidableEq

/-- Result record of the score engine (`TugStatus`,
tug-of-war.service.ts lines 9-14). -/
structure TugStatus where
  position : ℚ
  team1Score : ℚ
  team2Score : ℚ
  hasAnswers : Bool
  deriving DecidableEq

/-- `calculateTeamScore` (tug-of-war.service.ts lines 36-40):
`Math.round(correctAnswers * 50 + averageSpeed * 10)`. -/
def calculateTeamScore (correctAnswers averageSpeed : ℚ) : ℚ :=
  ((jsRound (correctAnswers * 50 + averageSpeed * 10) : ℤ) : ℚ)

/-- `calculateAverageSpeed` (tug-of-war.service.ts lines 47-62).  The JS
default argument `maxTimeMs = 30000` is always supplied by callers and is
passed explicitly here.  `a.responseTimeMs || 0` is `Option.getD 0`. -/
def calculateAverageSpeed (answers : List AnswerRec) (maxTimeMs : ℚ) : ℚ :=
  if answers.isEmpty then 0
  else
    let totalTimeSpent := answers.foldl (fun sum a => sum + a.responseTimeMs.getD 0) 0
    let averageTimeSpentMs := totalTimeSpent / (answers.length : ℚ)
    let maxTimeSeconds := maxTimeMs / 1000
    let averageTimeSpentSeconds := averageTimeSpentMs / 1000
    let speedScore := jsMax 0 (maxTimeSeconds - averageTimeSpentSeconds)
    round2 speedScore

/-- `calculateCorrectAnswers` (tug-of-war.service.ts lines 67-69). -/
def calculateCorrectAnswers (answers : List AnswerRec) : ℕ :=
  (answers.filter (fun a => a.isCorrect)).length

/-- `updateTugPosition` (tug-of-war.service.ts lines 76-121).  `powQ`
stands for `fun x => Math.pow x 0.7` (see module comment). -/
def updateTugPosition (powQ : ℚ → ℚ) (team1Score team2Score : ℚ)
    (hasAnswers : Bool) : TugStatus :=
  let totalScore := team1Score + team2Score
  if hasAnswers = false ∨ totalScore = 0 then
    { position := 0, team1Score := 0, team2Score := 0, hasAnswers := false }
  else
    let scoreDiff := team1Score - team2Score
    let minScore := jsMin team1Score team2Score
    let maxScore := jsMax team1Score team2Score
    let rawPosition :=
      if minScore = 0 ∧ 0 < maxScore then jsSign scoreDiff * 75
      else
        -- share of the max team: maxScore / totalScore (0.5 .. 1.0),
        -- normalised so 0.5 ↦ 0.0 and 0.75 ↦ 1.0, then raised to 0.7
        let maxShare := maxScore / totalScore
        let normalizedShare := jsMin 1 ((maxShare - 0.5) / 0.25)
        jsSign scoreDiff * powQ normalizedShare * 100
    let clampedPosition := jsMax (-100) (jsMin 100 rawPosition)
    { position := round2 clampedPosition, team1Score := team1Score,
      team2Score := team2Score, hasAnswers := true }

/-- `getAverageQuestionTime` (tug-of-war.service.ts lines 126-148) applied
to the questions of one quiz; `q.timeSeconds || 30` guards 0/null.  The
`questionTimeCache` is a pure memoisation of this value (the question set
of a quiz is immutable once the quiz starts) and is not modelled. -/
def getAverageQuestionTime (questions : List QuestionRec) : ℚ :=
  if questions.isEmpty then 30
  else
    (questions.foldl
        (fun sum q => sum + (if q.timeSeconds = 0 then 30 else (q.timeSeconds : ℚ))) 0)
      / (questions.length : ℚ)

/-- `calculateTugPosition` (tug-of-war.service.ts lines 153-207): the
repository queries become filters over the store. -/
def calculateTugPosition (powQ : ℚ → ℚ) (s : Store) (quizId : ℕ) : TugStatus :=
  let participants := s.participants.filter (fun p => p.quizId == quizId)
  if participants.isEmpty then
    { position := 0, team1Score := 0, team2Score := 0, hasAnswers := false }
  else
    let averageTimeSeconds :=
      getAverageQuestionTime (s.questions.filter (fun q => q.quizId == quizId))
    let maxTimeMs := averageTimeSeconds * 1000
    let allAnswers :=
      s.answers.filter (fun a => participants.any (fun p => p.id == a.participantId))
    let team1Members := participants.filter (fun p => p.team == Team.team1)
    let team2Members := participants.filter (fun p => p.team == Team.team2)
    let team1Answers :=
      allAnswers.filter (fun a => team1Members.any (fun m => m.id == a.participantId))
    let team2Answers :=
      allAnswers.filter (fun a => team2Members.any (fun m => m.id == a.participantId))
    let hasAnswers := !allAnswers.isEmpty
    let team1Score :=
      calculateTeamScore (calculateCorrectAnswers team1Answers : ℕ)
        (calculateAverageSpeed team1Answers maxTimeMs)
    let team2Score :=
      calculateTeamScore (calculateCorrectAnswers team2Answers : ℕ)
        (calculateAverageSpeed team2Answers maxTimeMs)
    updateTugPosition powQ team1Score team2Score hasAnswers

/-- `determineWinner` (tug-of-war.service.ts lines 220-224). -/
def determineWinner (t : TugStatus) : Option Team :=
  if 0 < t.position then some Team.team1
  else if t.position < 0 then some Team.team2
  else none

/-- `quizRepository.findOne({ where: { pin } })`. -/
def findQuizByPin (s : Store) (pin : ℕ) : Option QuizRec :=
  s.quizzes.find? (fun q => q.pin == pin)

/-- `quizRepository.findOne({ where: { id: quizId } })`. -/
def findQuizById (s : Store) (quizId : ℕ) : Option QuizRec :=
  s.quizzes.find? (fun q => q.id == quizId)

/-- Status of the quiz with the given id, as currently persisted. -/
def statusOf (s : Store) (quizId : ℕ) : Option QuizStatus :=
  (findQuizById s quizId).map (fun q => q.status)

/-- Status of the quiz with the given PIN, as currently persisted. -/
def quizStatusByPin (s : Store) (pin : ℕ) : Option QuizStatus :=
  (findQuizByPin s pin).map (fun q => q.status)

/-- Persisting a mutated `quiz.status` via `quizRepository.save(quiz)`:
the row with the quiz's id is overwritten. -/
def setStatusUpd (quizId : ℕ) (st : QuizStatus) (q : QuizRec) : QuizRec :=
  if q.id == quizId then { q with status := st } else q

/-- Error taxonomy: one constructor per `throw` site family in the
services (NotFoundException / BadRequestException / ForbiddenException).
`alreadyAnswered` is the duplicate-answer BadRequest
(quizzes.service.ts line 359), the realisation of the spec's `Conflict`. -/
inductive ServiceError
  | quizNotFound
  | questionNotFound
  | participantNotFound
  | forbidden
  | gameNotStarted
  | alreadyStartedOrFinished
  | alreadyAnswered
  | optionNotFound
  | noCorrectOption
  deriving DecidableEq

/-- Payload returned by `submitAnswer` on success (the saved Answer merged
with `{ tugStatus, shouldAutoFinish, gameFinished }`). -/
structure SubmitResult where
  answer : AnswerRec
  tugStatus : TugStatus
  shouldAutoFinish : Bool
  gameFinished : Bool
  deriving DecidableEq

/-- Predicate picking the Answer rows of one (participant, question) pair. -/
def pairPred (participantId questionId : ℕ) (a : AnswerRec) : Bool :=
  a.participantId == participantId && a.questionId == questionId

/-- Number of persisted Answer rows for one (participant, question) pair. -/
def countPairAnswers (s : Store) (participantId questionId : ℕ) : ℕ :=
  (s.answers.filter (pairPred participantId questionId)).length

/-- `QuizzesService.startQuiz` (quizzes.service.ts lines 167-209).  The
requester id is `Option ℕ` because the gateway can pass a null userId;
`quiz.creatorId !== userId` then fails.  The returned quiz is the updated
row (the source re-reads it with its questions; question loading carries
no extra semantics here). -/
def startQuiz (s : Store) (quizId : ℕ) (userId : Option ℕ) :
    Except ServiceError (Store × QuizRec) :=
  match findQuizById s quizId with
  | none => Except.error ServiceError.quizNotFound
  | some quiz =>
    if userId ≠ some quiz.creatorId then Except.error ServiceError.forbidden
    else if quiz.status ≠ QuizStatus.created then
      Except.error ServiceError.alreadyStartedOrFinished
    else
      Except.ok
        ({ s with quizzes := s.quizzes.map (setStatusUpd quizId QuizStatus.started) },
          { quiz with status := QuizStatus.started })

/-- `QuizzesService.finishQuiz` (quizzes.service.ts lines 403-424): sets
status = finished unconditionally after the creator check.  The
`tugOfWarService.clearCache` call only clears the memoised average
question time (see `getAverageQuestionTime`) and is not modelled. -/
def finishQuiz (s : Store) (quizId : ℕ) (userId : Option ℕ) :
    Except ServiceError (Store × QuizRec) :=
  match findQuizById s quizId with
  | none => Except.error ServiceError.quizNotFound
  | some quiz =>
    if userId ≠ some quiz.creatorId then Except.error ServiceError.forbidden
    else
      Except.ok
        ({ s with quizzes := s.quizzes.map (setStatusUpd quizId QuizStatus.finished) },
          { quiz with status := QuizStatus.finished })

/-- `QuizzesService.submitAnswer` (quizzes.service.ts lines 321-400),
check for check and in source order.  Note that the question is resolved
by id alone — its `quizId` is never compared with the quiz found by PIN. -/
def submitAnswer (powQ : ℚ → ℚ) (s : Store)
    (pin questionId participantId selectedOptionId : ℕ) (responseTimeMs : ℚ) :
    Except ServiceError (Store × SubmitResult) :=
  match findQuizByPin s pin with
  | none => Except.error ServiceError.quizNotFound
  | some quiz =>
    if quiz.status ≠ QuizStatus.started then Except.error ServiceError.gameNotStarted
    else
      match s.questions.find? (fun q => q.id == questionId) with
      | none => Except.error ServiceError.questionNotFound
      | some question =>
        match s.participants.find? (fun p => p.id == participantId) with
        | none => Except.error ServiceError.participantNotFound
        | some participant =>
          if participant.pin ≠ pin then Except.error ServiceError.participantNotFound
          else
            match s.answers.find? (pairPred participantId questionId) with
            | some _ => Except.error ServiceError.alreadyAnswered
            | none =>
              match question.options.find? (fun o => o == selectedOptionId) with
              | none => Except.error ServiceError.optionNotFound
              | some _ =>
                match question.correctAnswerId with
                | none => Except.error ServiceError.noCorrectOption
                | some correctId =>
                  let answer : AnswerRec :=
                    { participantId := participantId, questionId := questionId,
                      selectedOptionId := selectedOptionId,
                      isCorrect := correctId == selectedOptionId,
                      responseTimeMs := some responseTimeMs }
                  let s₁ : Store := { s with answers := s.answers ++ [answer] }
                  let tugStatus := calculateTugPosition powQ s₁ quiz.id
                  let shouldAutoFinish :=
                    decide (100 ≤ jsAbs tugStatus.position) && tugStatus.hasAnswers
                  let s₂ : Store :=
                    if shouldAutoFinish = true ∧ quiz.status = QuizStatus.started then
                      { s₁ with
                        quizzes := s₁.quizzes.map (setStatusUpd quiz.id QuizStatus.finished) }
                    else s₁
                  Except.ok
                    (s₂,
                      { answer := answer, tugStatus := tugStatus,
                        shouldAutoFinish := shouldAutoFinish,
                        gameFinished := shouldAutoFinish })

/-- `QuizzesService.getTugPosition` (quizzes.service.ts lines 626-633). -/
def getTugPosition (powQ : ℚ → ℚ) (s : Store) (quizId : ℕ) :
    Except ServiceError TugStatus :=
  match findQuizById s quizId with
  | none => Except.error ServiceError.quizNotFound
  | some _ => Except.ok (calculateTugPosition powQ s quizId)

/-- Summary of the `getResults` payload: the fields derived from the score
engine.  The per-participant statistics of the full payload are pure reads
not referenced by any verified property and are omitted. -/
structure ResultsSummary where
  quizId : ℕ
  winner : Option Team
  finalPosition : ℚ
  tug : TugStatus
  deriving DecidableEq

/-- `QuizzesService.getResults` (quizzes.service.ts lines 427-563):
resolution, the creator authorization gate, and the score-engine-derived
summary (see `ResultsSummary`). -/
def getResults (powQ : ℚ → ℚ) (s : Store) (quizId : ℕ) (userId : Option ℕ) :
    Except ServiceError ResultsSummary :=
  match findQuizById s quizId with
  | none => Except.error ServiceError.quizNotFound
  | some quiz =>
    if userId ≠ some quiz.creatorId then Except.error ServiceError.forbidden
    else
      let tug := calculateTugPosition powQ s quizId
      Except.ok
        { quizId := quiz.id, winner := determineWinner tug,
          finalPosition := tug.position, tug := tug }

/-- `QuizzesService.getParticipantsByPin` (quizzes.service.ts lines
636-686): resolution, creator gate, participant list (team grouping of the
payload omitted). -/
def getParticipantsByPin (s : Store) (pin : ℕ) (userId : Option ℕ) :
    Except ServiceError (List ParticipantRec) :=
  match findQuizByPin s pin with
  | none => Except.error ServiceError.quizNotFound
  | some quiz =>
    if userId ≠ some quiz.creatorId then Except.error ServiceError.forbidden
    else Except.ok (s.participants.filter (fun p => p.pin == pin))

/-- Success test for an `Except` result. -/
def isOkE {ε α : Type} : Except ε α → Bool
  | Except.ok _ => true
  | Except.error _ => false

/-- Store left behind by `finishQuiz` (unchanged when it fails). -/
def finishApply (s : Store) (quizId : ℕ) (userId : Option ℕ) : Store :=
  match finishQuiz s quizId userId with
  | Except.ok (s₁, _) => s₁
  | Except.error _ => s

/-- Store left behind by `submitAnswer` (unchanged when it fails). -/
def submitAnswerStore (powQ : ℚ → ℚ) (s : Store)
    (pin questionId participantId selectedOptionId : ℕ) (responseTimeMs : ℚ) : Store :=
  match submitAnswer powQ s pin questionId participantId selectedOptionId responseTimeMs with
  | Except.ok (s₁, _) => s₁
  | Except.error _ => s

/-! Gateway layer (`QuizGateway`, gateways/quiz.gateway.ts).  A socket's
`client.data` is a `ClientData`; the gateway's mutable maps
(`questionStartTimes`, `questionTimers`) form the `GatewayState`.  A
`setTimeout` handle is modelled by the `TimerInfo` entry alone:
`clearTimeout` + `Map.delete` is deletion of the entry, and registering a
new timer for a quiz replaces the entry.  Room broadcasts
(`server.to(room).emit`) are collected as a list of `Event`s;
`client.emit('error', ...)` feedback to the caller is captured by the
handler's result value, not as a room event. -/

/-- Connection role as stored on `client.data.role`. -/
inductive Role
  | teacher
  | student
  deriving DecidableEq

/-- Per-connection data (`client.data`), reset to all-null on connect. -/
structure ClientData where
  role : Option Role
  userId : Option ℕ
  pin : Option ℕ
  participantId : Option ℕ
  deriving DecidableEq

/-- Entry of the `questionTimers` map (quiz.gateway.ts line 92); the
`timerId` handle is implicit (see module note). -/
structure TimerInfo where
  questionIndex : ℕ
  startTime : ℤ
  timeSeconds : ℕ
  pin : ℕ
  deriving DecidableEq

/-- The gateway's engine-owned mutable state. -/
structure GatewayState where
  questionStartTimes : ℕ → ℕ → Option ℤ
  questionTimers : ℕ → Option TimerInfo

/-- `clearTimeout` + `questionTimers.delete(quizId)`. -/
def deleteTimer (g : GatewayState) (quizId : ℕ) : GatewayState :=
  { g with questionTimers := fun i => if i = quizId then none else g.questionTimers i }

/-- Register the (single) timer of a quiz, replacing any previous one. -/
def setTimer (g : GatewayState) (quizId : ℕ) (t : TimerInfo) : GatewayState :=
  { g with questionTimers := fun i => if i = quizId then some t else g.questionTimers i }

/-- `questionStartTimes.get(quizId).set(idx, now)`. -/
def setStartTime (g : GatewayState) (quizId idx : ℕ) (time : ℤ) : GatewayState :=
  { g with
    questionStartTimes := fun i j =>
      if i = quizId ∧ j = idx then some time else g.questionStartTimes i j }

/-- `questionStartTimes.delete(quizId)`. -/
def deleteStartTimes (g : GatewayState) (quizId : ℕ) : GatewayState :=
  { g with
    questionStartTimes := fun i j =>
      if i = quizId then none else g.questionStartTimes i j }

/-- Room broadcasts emitted by the modelled handlers (payload timestamps
omitted). -/
inductive Event
  | questionFinished (questionId : ℕ)
  | gameUpdate (pin quizId : ℕ) (status : QuizStatus) (currentQuestionIndex : Option ℕ)
  | startQuestion (pin idx questionId timeSeconds : ℕ)
  | questionStartedCompat (questionId idx : ℕ)
  | quizResults (quizId : ℕ)
  deriving DecidableEq

/-- Insert a question into a list already sorted by `order`. -/
def insertByOrder (q : QuestionRec) : List QuestionRec → List QuestionRec
  | [] => [q]
  | x :: xs => if q.order ≤ x.order then q :: x :: xs else x :: insertByOrder q xs

/-- Sort questions by `order` (insertion sort). -/
def sortByOrder : List QuestionRec → List QuestionRec
  | [] => []
  | x :: xs => insertByOrder x (sortByOrder xs)

/-- Questions of a quiz as loaded by `getQuizByPin` / `startQuiz`
(`relations: questions`, `order: { questions: { order: ASC } }`). -/
def questionsOfQuiz (s : Store) (quizId : ℕ) : List QuestionRec :=
  sortByOrder (s.questions.filter (fun q => q.quizId == quizId))

/-- Outcome of `handleJoinQuiz` as seen by the caller. -/
inductive JoinRes
  | ok
  | notCreator
  | resolveFailed (e : ServiceError)
  deriving DecidableEq

/-- `QuizGateway.handleJoinQuiz` (quiz.gateway.ts lines 270-355).  Note
the order in the source: `client.data` (pin/role/userId/participantId) is
assigned at lines 300-303 BEFORE the teacher creator check at lines
309-314, so a rejected teacher join still leaves the connection tagged
with `role = teacher`. -/
def handleJoinQuiz (s : Store) (c : ClientData) (pin : ℕ) (role : Role)
    (userId participantId : Option ℕ) : JoinRes × ClientData :=
  match findQuizByPin s pin with
  | none => (JoinRes.resolveFailed ServiceError.quizNotFound, c)
  | some quiz =>
    let c₁ : ClientData :=
      { c with
        pin := some pin
        role := some role
        userId := userId
        participantId := participantId }
    match role, userId with
    | Role.teacher, some u =>
      if quiz.creatorId ≠ u then (JoinRes.notCreator, c₁) else (JoinRes.ok, c₁)
    | _, _ => (JoinRes.ok, c₁)

/-- Generic gateway call outcome for the teacher-only request handlers. -/
inductive GwRes
  | success
  | roleRejected
  | svcError (e : ServiceError)
  deriving DecidableEq

/-- `QuizGateway.handleStartQuiz` (quiz.gateway.ts lines 357-387): role
gate, `startQuiz` with the PAYLOAD userId, `game-update` broadcast. -/
def handleStartQuiz (s : Store) (c : ClientData) (pin quizId : ℕ)
    (userId : Option ℕ) : GwRes × Store × List Event :=
  if c.role ≠ some Role.teacher then (GwRes.roleRejected, s, [])
  else
    match startQuiz s quizId userId with
    | Except.error e => (GwRes.svcError e, s, [])
    | Except.ok (s₁, quiz) =>
      (GwRes.success, s₁, [Event.gameUpdate pin quiz.id quiz.status (some 0)])

/-- Outcome of `handleStartQuestion` — one constructor per `client.emit`
error site in quiz.gateway.ts lines 389-571, in source order. -/
inductive StartQuestionRes
  | errQuizNotFound
  | errNotJoined
  | errNotCreator
  | errNotCreatorRole
  | errNoQuestions
  | errGameFinished
  | errGameNotStarted
  | errBadIndex
  | errTooEarly (remainingSeconds : ℤ)
  | errQuestionNotFound
  | ok
  deriving DecidableEq

/-- Did the handler fail with the "too early" condition? -/
def isTooEarly : StartQuestionRes → Bool
  | StartQuestionRes.errTooEarly _ => true
  | _ => false

/-- Step 7 of `handleStartQuestion` (quiz.gateway.ts lines 477-500): the
too-early gate.  Returns `some remainingSeconds` when the display duration
of question `idx-1` has not yet elapsed since its recorded start time.
JS truthiness (`if (previousQuestion.timeSeconds)`,
`if (previousQuestionStartTime)`) skips the gate for a 0 value. -/
def tooEarlyCheck (g : GatewayState) (quizId : ℕ) (qs : List QuestionRec)
    (idx : ℕ) (now : ℤ) : Option ℤ :=
  if 0 < idx then
    match qs[idx - 1]? with
    | none => none
    | some prevQ =>
      if prevQ.timeSeconds = 0 then none
      else
        match g.questionStartTimes quizId (idx - 1) with
        | none => none
        | some t0 =>
          if t0 = 0 then none
          else
            let elapsed : ℤ := now - t0
            let minTime : ℤ := (prevQ.timeSeconds : ℤ) * 1000
            if elapsed < minTime then some ⌈((minTime - elapsed : ℤ) : ℚ) / 1000⌉
            else none
  else none

/-- `QuizGateway.handleStartQuestion` (quiz.gateway.ts lines 389-571).
Steps as numbered in the source: resolve quiz by PIN; role check with the
automatic teacher promotion of lines 407-436 (which can mutate
`client.data.role`); questions present; status started; index in range;
too-early gate; record start time; replace the quiz's timer
(`timeSeconds + 3` seconds, held in `TimerInfo`); broadcast. -/
def handleStartQuestion (s : Store) (g : GatewayState) (c : ClientData)
    (pin idx : ℕ) (now : ℤ) :
    StartQuestionRes × GatewayState × ClientData × List Event :=
  match findQuizByPin s pin with
  | none => (StartQuestionRes.errQuizNotFound, g, c, [])
  | some quiz =>
    let qs := questionsOfQuiz s quiz.id
    let roleCheck : Option StartQuestionRes × ClientData :=
      if c.role ≠ some Role.teacher then
        match c.userId with
        | none => (some StartQuestionRes.errNotJoined, c)
        | some u =>
          if quiz.creatorId = u then (none, { c with role := some Role.teacher })
          else (some StartQuestionRes.errNotCreator, c)
      else
        if c.userId ≠ some quiz.creatorId then
          (some StartQuestionRes.errNotCreatorRole, c)
        else (none, c)
    match roleCheck with
    | (some e, c₁) => (e, g, c₁, [])
    | (none, c₁) =>
      if qs.isEmpty then (StartQuestionRes.errNoQuestions, g, c₁, [])
      else if quiz.status ≠ QuizStatus.started then
        (if quiz.status = QuizStatus.finished then
          (StartQuestionRes.errGameFinished, g, c₁, [])
         else (StartQuestionRes.errGameNotStarted, g, c₁, []))
      else if qs.length ≤ idx then (StartQuestionRes.errBadIndex, g, c₁, [])
      else
        match tooEarlyCheck g quiz.id qs idx now with
        | some remaining => (StartQuestionRes.errTooEarly remaining, g, c₁, [])
        | none =>
          match qs[idx]? with
          | none => (StartQuestionRes.errQuestionNotFound, g, c₁, [])
          | some q =>
            let g₁ := setStartTime g quiz.id idx now
            let g₂ := setTimer g₁ quiz.id
              { questionIndex := idx, startTime := now,
                timeSeconds := q.timeSeconds, pin := pin }
            (StartQuestionRes.ok, g₂, c₁,
              [Event.startQuestion pin idx q.id q.timeSeconds,
               Event.gameUpdate pin quiz.id quiz.status (some idx),
               Event.questionStartedCompat q.id idx])

/-- `QuizGateway.autoAdvanceQuestion` (quiz.gateway.ts lines 580-689), the
timer expiry handler.  If the quiz is gone or its status is no longer
`started`, the handler only discards its timer entry (the catch block and
the stale-status branch both end in `questionTimers.delete`), leaving the
store, the recorded start times and the broadcast stream untouched.
Otherwise it either finishes the quiz (last question) or starts question
`idx + 1` and re-arms the timer.  Note the source indexes
`questionStartTimes`/`questionTimers` by the `quizId` PARAMETER in this
handler while resolving the quiz itself by `pin`. -/
def autoAdvanceQuestion (powQ : ℚ → ℚ) (s : Store) (g : GatewayState)
    (quizId pin idx : ℕ) (userId : Option ℕ) (now : ℤ) :
    Store × GatewayState × List Event :=
  match findQuizByPin s pin with
  | none => (s, deleteTimer g quizId, [])
  | some quiz =>
    if quiz.status ≠ QuizStatus.started then (s, deleteTimer g quizId, [])
    else
      let qs := questionsOfQuiz s quiz.id
      let next := idx + 1
      if qs.length ≤ next then
        let g₁ := deleteTimer g quizId
        match finishQuiz s quizId userId with
        | Except.error _ => (s, g₁, [])
        | Except.ok (s₁, _) =>
          match getTugPosition powQ s₁ quizId with
          | Except.error _ => (s₁, g₁, [])
          | Except.ok _ =>
            let ev := Event.gameUpdate pin quiz.id QuizStatus.finished (some idx)
            match getResults powQ s₁ quiz.id userId with
            | Except.ok _ => (s₁, g₁, [ev, Event.quizResults quiz.id])
            | Except.error _ => (s₁, g₁, [ev])
      else
        match qs[next]? with
        | none => (s, g, [])
        | some nq =>
          let g₁ := setStartTime g quizId next now
          let g₂ := setTimer g₁ quizId
            { questionIndex := next, startTime := now,
              timeSeconds := nq.timeSeconds, pin := pin }
          (s, g₂,
            [Event.startQuestion pin next nq.id nq.timeSeconds,
             Event.gameUpdate pin quiz.id quiz.status (some next)])

/-- Outcome of `handleFinishQuestion`. -/
inductive FinishQuestionRes
  | roleRejected
  | ok (isLastQuestion : Bool)
  | svcError (e : ServiceError)
  deriving DecidableEq

/-- `QuizGateway.handleFinishQuestion` (quiz.gateway.ts lines 808-875).
After the `role = teacher` gate (line 816) there is NO creator identity
check; the `question-finished` broadcast is emitted unconditionally (line
830), and only the last-question auto-finish path re-validates the caller
through `finishQuiz`'s creator check. -/
def handleFinishQuestion (powQ : ℚ → ℚ) (s : Store) (g : GatewayState)
    (c : ClientData) (pin questionId : ℕ) :
    FinishQuestionRes × Store × GatewayState × List Event :=
  if c.role ≠ some Role.teacher then (FinishQuestionRes.roleRejected, s, g, [])
  else
    match findQuizByPin s pin with
    | none => (FinishQuestionRes.svcError ServiceError.quizNotFound, s, g, [])
    | some quiz =>
      let qs := questionsOfQuiz s quiz.id
      let timer := g.questionTimers quiz.id
      let isLast : Bool :=
        match timer with
        | some t => decide (0 < qs.length) && (t.questionIndex == qs.length - 1)
        | none => false
      let ev₀ := Event.questionFinished questionId
      if isLast = true ∧ quiz.status = QuizStatus.started then
        let g₁ := deleteTimer g quiz.id
        match finishQuiz s quiz.id c.userId with
        | Except.error e => (FinishQuestionRes.svcError e, s, g₁, [ev₀])
        | Except.ok (s₁, _) =>
          match getTugPosition powQ s₁ quiz.id with
          | Except.error e => (FinishQuestionRes.svcError e, s₁, g₁, [ev₀])
          | Except.ok _ =>
            let lastIdx :=
              match timer with
              | some t => t.questionIndex
              | none => qs.length - 1
            let ev₁ := Event.gameUpdate pin quiz.id QuizStatus.finished (some lastIdx)
            match getResults powQ s₁ quiz.id c.userId with
            | Except.ok _ =>
              (FinishQuestionRes.ok isLast, s₁, g₁, [ev₀, ev₁, Event.quizResults quiz.id])
            | Except.error _ => (FinishQuestionRes.ok isLast, s₁, g₁, [ev₀, ev₁])
      else (FinishQuestionRes.ok isLast, s, g, [ev₀])

/-- `QuizGateway.handleFinishQuiz` (quiz.gateway.ts lines 877-929): role
gate, `finishQuiz` with the payload userId, timer + start-time cleanup,
`game-update` and `quiz-results` broadcasts.  When the quiz carries no
timer the source computes the last index from `quiz.questions`, which
`finishQuiz` does not load, so `(quiz.questions?.length || 1) - 1 = 0`. -/
def handleFinishQuiz (powQ : ℚ → ℚ) (s : Store) (g : GatewayState)
    (c : ClientData) (pin quizId : ℕ) (userId : Option ℕ) :
    GwRes × Store × GatewayState × List Event :=
  if c.role ≠ some Role.teacher then (GwRes.roleRejected, s, g, [])
  else
    match finishQuiz s quizId userId with
    | Except.error e => (GwRes.svcError e, s, g, [])
    | Except.ok (s₁, quiz) =>
      let timer := g.questionTimers quiz.id
      let g₁ := match timer with
        | some _ => deleteTimer g quiz.id
        | none => g
      let g₂ := deleteStartTimes g₁ quiz.id
      match getTugPosition powQ s₁ quizId with
      | Except.error e => (GwRes.svcError e, s₁, g₂, [])
      | Except.ok _ =>
        let lastIdx :=
          match timer with
          | some t => t.questionIndex
          | none => 0
        let ev := Event.gameUpdate pin quiz.id quiz.status (some lastIdx)
        match getResults powQ s₁ quiz.id userId with
        | Except.ok _ => (GwRes.success, s₁, g₂, [ev, Event.quizResults quiz.id])
        | Except.error _ => (GwRes.success, s₁, g₂, [ev])

/-- `QuizGateway.handleGetResults` (quiz.gateway.ts lines 931-958): role
gate, then `getResults`; the payload goes to the requesting client only
(no room broadcast). -/
def handleGetResults (powQ : ℚ → ℚ) (s : Store) (c : ClientData)
    (quizId : ℕ) (userId : Option ℕ) : GwRes :=
  if c.role ≠ some Role.teacher then GwRes.roleRejected
  else
    match getResults powQ s quizId userId with
    | Except.ok _ => GwRes.success
    | Except.error e => GwRes.svcError e

/-- `QuizGateway.handleGetParticipants` (quiz.gateway.ts lines 960-983):
role gate, then `getParticipantsByPin`; reply to the caller only. -/
def handleGetParticipants (s : Store) (c : ClientData) (pin : ℕ)
    (userId : Option ℕ) : GwRes :=
  if c.role ≠ some Role.teacher then GwRes.roleRejected
  else
    match getParticipantsByPin s pin userId with
    | Except.ok _ => GwRes.success
    | Except.error e => GwRes.svcError e

/-- One successful status-writing service operation: `startQuiz`,
`finishQuiz`, or `submitAnswer` (whose win-by-domination branch may finish
the quiz). -/
inductive Step : Store → Store → Prop
  | start (s : Store) (quizId : ℕ) (userId : Option ℕ) (s₁ : Store) (q : QuizRec)
      (h : startQuiz s quizId userId = Except.ok (s₁, q)) : Step s s₁
  | finish (s : Store) (quizId : ℕ) (userId : Option ℕ) (s₁ : Store) (q : QuizRec)
      (h : finishQuiz s quizId userId = Except.ok (s₁, q)) : Step s s₁
  | submit (powQ : ℚ → ℚ) (s : Store) (pin questionId participantId selectedOptionId : ℕ)
      (responseTimeMs : ℚ) (s₁ : Store) (r : SubmitResult)
      (h : submitAnswer powQ s pin questionId participantId selectedOptionId responseTimeMs
            = Except.ok (s₁, r)) : Step s s₁

/-! Concrete fixtures used by the witness theorems below.  `powId` is a
concrete instantiation of the abstract `Math.pow (·) 0.7` parameter; the
executions below never reach a code path whose result depends on it. -/

/-- Concrete stand-in for the abstract pow parameter. -/
def powId : ℚ → ℚ := fun x => x

/-- One started quiz (id 1, pin 111, creator 9), one 30-second question
(id 10, correct option 100), one team-1 participant (id 20), no answers. -/
def W2store : Store :=
  { quizzes := [{ id := 1, pin := 111, status := QuizStatus.started, creatorId := 9 }]
    questions := [{ id := 10, quizId := 1, timeSeconds := 30, correctAnswerId := some 100,
                    options := [100, 101], order := 0 }]
    participants := [{ id := 20, team := Team.team1, quizId := 1, pin := 111 }]
    answers := [] }

/-- The answer written by the fixture submission (correct, 5000 ms). -/
def W2answer : AnswerRec :=
  { participantId := 20, questionId := 10, selectedOptionId := 100,
    isCorrect := true, responseTimeMs := some 5000 }

/-- Store after the fixture submission. -/
def W2store1 : Store := { W2store with answers := [W2answer] }

/-- Result of the fixture submission: position 75, no auto-finish. -/
def W2res : SubmitResult :=
  { answer := W2answer
    tugStatus := { position := 75, team1Score := 300, team2Score := 0, hasAnswers := true }
    shouldAutoFinish := false
    gameFinished := false }

/-- A quiz still in `created` status, for the lifecycle fixtures. -/
def W4store : Store :=
  { quizzes := [{ id := 1, pin := 111, status := QuizStatus.created, creatorId := 9 }]
    questions := [], participants := [], answers := [] }

/-- `W4store` after `startQuiz`. -/
def W4store1 : Store :=
  { quizzes := [{ id := 1, pin := 111, status := QuizStatus.started, creatorId := 9 }]
    questions := [], participants := [], answers := [] }

/-- A started two-question quiz (pin 222) for the start-question fixtures. -/
def W7store : Store :=
  { quizzes := [{ id := 1, pin := 222, status := QuizStatus.started, creatorId := 9 }]
    questions := [{ id := 20, quizId := 1, timeSeconds := 30, correctAnswerId := some 200,
                    options := [200, 201], order := 0 },
                  { id := 21, quizId := 1, timeSeconds := 30, correctAnswerId := some 210,
                    options := [210, 211], order := 1 }]
    participants := [], answers := [] }

/-- Gateway state recording that question 0 of quiz 1 started at t = 1000. -/
def W7g : GatewayState :=
  { questionStartTimes := fun i j => if i = 1 ∧ j = 0 then some 1000 else none
    questionTimers := fun _ => none }

/-- A joined teacher connection for quiz pin 222. -/
def W7c : ClientData :=
  { role := some Role.teacher, userId := some 9, pin := some 222, participantId := none }

/-- A finished quiz (pin 444) for the stale-timer fixture. -/
def W8store : Store :=
  { quizzes := [{ id := 1, pin := 444, status := QuizStatus.finished, creatorId := 9 }]
    questions := [], participants := [], answers := [] }

/-- Empty gateway state. -/
def W8g : GatewayState :=
  { questionStartTimes := fun _ _ => none, questionTimers := fun _ => none }

/-- A started two-question quiz (pin 333, creator 9) for the join fixtures. -/
def W9store : Store :=
  { quizzes := [{ id := 1, pin := 333, status := QuizStatus.started, creatorId := 9 }]
    questions := [{ id := 40, quizId := 1, timeSeconds := 30, correctAnswerId := some 400,
                    options := [400], order := 0 },
                  { id := 41, quizId := 1, timeSeconds := 30, correctAnswerId := some 410,
                    options := [410], order := 1 }]
    participants := [], answers := [] }

/-- Two quizzes where question 30 belongs to quiz 2 while the submission
goes to quiz 1 (pin 111): the foreign-question fixture. -/
def W10store : Store :=
  { quizzes := [{ id := 1, pin := 111, status := QuizStatus.started, creatorId := 9 },
                { id := 2, pin := 222, status := QuizStatus.created, creatorId := 9 }]
    questions := [{ id := 30, quizId := 2, timeSeconds := 30, correctAnswerId := some 300,
                    options := [300, 301], order := 0 }]
    participants := [{ id := 20, team := Team.team1, quizId := 1, pin := 111 }]
    answers := [] }

/-! Bridge lemmas relating the kernel-evaluable JS helpers to their
Mathlib counterparts, and general list lemmas used by several proofs. -/

theorem jsMax_eq (a b : ℚ) : jsMax a b = max a b := (max_def a b).symm

theorem jsMin_eq (a b : ℚ) : jsMin a b = min a b := (min_def a b).symm

theorem jsAbs_eq (x : ℚ) : jsAbs x = |x| := by
  rw [jsAbs]
  by_cases h : x < 0
  · rw [if_pos h, abs_of_neg h]
  · rw [if_neg h, abs_of_nonneg (le_of_not_lt h)]

theorem jsRound_eq (x : ℚ) : jsRound x = round x := by
  rw [jsRound, round_eq, Rat.floor_def']
  exact Rat.floor_def.symm

/-- The two-decimal rounding of the clamped raw position stays in
[-100, 100]. -/
theorem round2_clamp_bounds (x : ℚ) :
    -100 ≤ round2 (jsMax (-100) (jsMin 100 x)) ∧
      round2 (jsMax (-100) (jsMin 100 x)) ≤ 100 := by
  have hy1 : (-100 : ℚ) ≤ jsMax (-100) (jsMin 100 x) := by
    rw [jsMax_eq]; exact le_max_left _ _
  have hy2 : jsMax (-100) (jsMin 100 x) ≤ 100 := by
    rw [jsMax_eq, jsMin_eq]; exact max_le (by norm_num) (min_le_left _ _)
  set y := jsMax (-100) (jsMin 100 x) with hy
  rw [round2]
  constructor
  · rw [le_div_iff₀ (by norm_num : (0 : ℚ) < 100)]
    have hz : (-10000 : ℤ) ≤ jsRound (y * 100) := by
      rw [jsRound_eq, round_eq]
      exact Int.le_floor.mpr (by push_cast; linarith)
    calc (-100 : ℚ) * 100 = ((-10000 : ℤ) : ℚ) := by norm_num
      _ ≤ _ := by exact_mod_cast hz
  · rw [div_le_iff₀ (by norm_num : (0 : ℚ) < 100)]
    have hz : jsRound (y * 100) ≤ 10000 := by
      rw [jsRound_eq, round_eq]
      have hlt : (y * 100 + 1 / 2 : ℚ) < ((10001 : ℤ) : ℚ) := by push_cast; linarith
      have := Int.floor_lt.mpr hlt
      omega
    calc ((jsRound (y * 100) : ℤ) : ℚ) ≤ ((10000 : ℤ) : ℚ) := by exact_mod_cast hz
      _ = 100 * 100 := by norm_num

/-- The position computed by `updateTugPosition` is always in [-100, 100]:
the zero branch returns 0 and every other branch clamps before rounding,
whatever `powQ` returns. -/
theorem updateTugPosition_position_bounds (powQ : ℚ → ℚ) (t1 t2 : ℚ) (hA : Bool) :
    -100 ≤ (updateTugPosition powQ t1 t2 hA).position ∧
      (updateTugPosition powQ t1 t2 hA).position ≤ 100 := by
  rw [updateTugPosition]
  by_cases h0 : hA = false ∨ t1 + t2 = 0
  · simp only [if_pos h0]
    norm_num
  · simp only [if_neg h0]
    exact round2_clamp_bounds _

/-- The position computed by `calculateTugPosition` is always in
[-100, 100]. -/
theorem calculateTugPosition_position_bounds (powQ : ℚ → ℚ) (s : Store) (quizId : ℕ) :
    -100 ≤ (calculateTugPosition powQ s quizId).position ∧
      (calculateTugPosition powQ s quizId).position ≤ 100 := by
  rw [calculateTugPosition]
  by_cases h0 : (s.participants.filter (fun p => p.quizId == quizId)).isEmpty = true
  · simp only [if_pos h0]
    norm_num
  · simp only [if_neg h0]
    exact updateTugPosition_position_bounds _ _ _ _

/-- The value of `updateTugPosition` does not depend on the pow parameter
when one team's score is zero (the `minScore == 0` branch). -/
theorem updateTugPosition_pow_irrel (p₁ p₂ : ℚ → ℚ) (t1 t2 : ℚ) (hA : Bool)
    (h : jsMin t1 t2 = 0 ∧ 0 < jsMax t1 t2) :
    updateTugPosition p₁ t1 t2 hA = updateTugPosition p₂ t1 t2 hA := by
  rw [updateTugPosition, updateTugPosition]
  by_cases h0 : hA = false ∨ t1 + t2 = 0
  · simp only [if_pos h0]
  · simp only [if_neg h0, if_pos h]

/-- Mapping a function that preserves a predicate's value commutes with
`find?`. -/
theorem find_map_pres {α : Type} (f : α → α) (p : α → Bool)
    (hp : ∀ a, p (f a) = p a) :
    ∀ l : List α, (l.map f).find? p = (l.find? p).map f := by
  intro l
  induction l with
  | nil => rfl
  | cons a t ih =>
    simp only [List.map, List.find?, hp a]
    cases hpa : p a
    · simpa [hpa] using ih
    · simp [hpa]

/-- `find?` skips a prefix in which nothing matches. -/
theorem find_append_none {α : Type} (p : α → Bool) (l₁ l₂ : List α)
    (h : l₁.find? p = none) : (l₁ ++ l₂).find? p = l₂.find? p := by
  induction l₁ with
  | nil => rfl
  | cons a t ih =>
    rw [List.cons_append]
    cases hpa : p a
    · have h' : t.find? p = none := by simpa [List.find?, hpa] using h
      simp [List.find?, hpa, ih h']
    · exfalso
      simp [List.find?, hpa] at h

/-- In a list of naturals, `find?` for equality with a member returns it. -/
theorem find_beq_self {a : ℕ} : ∀ {l : List ℕ}, a ∈ l →
    l.find? (fun o => o == a) = some a := by
  intro l h
  induction l with
  | nil => cases h
  | cons b t ih =>
    by_cases hba : b = a
    · subst hba; simp [List.find?]
    · have ht : a ∈ t := by
        cases h with
        | head => exact absurd rfl hba
        | tail _ h => exact h
      have hb : (b == a) = false := by simp [hba]
      simp only [List.find?, hb]
      exact ih ht

theorem setStatusUpd_id (quizId : ℕ) (st : QuizStatus) (q : QuizRec) :
    (setStatusUpd quizId st q).id = q.id := by
  rw [setStatusUpd]; split <;> rfl

theorem setStatusUpd_pin (quizId : ℕ) (st : QuizStatus) (q : QuizRec) :
    (setStatusUpd quizId st q).pin = q.pin := by
  rw [setStatusUpd]; split <;> rfl

theorem setStatusUpd_creatorId (quizId : ℕ) (st : QuizStatus) (q : QuizRec) :
    (setStatusUpd quizId st q).creatorId = q.creatorId := by
  rw [setStatusUpd]; split <;> rfl

/-- After overwriting the status of every row with the given id, the
status found for that id is the new one (provided some row has the id). -/
theorem find_map_setStatus (l : List QuizRec) (quizId : ℕ) (st : QuizStatus)
    (q₀ : QuizRec) (h : l.find? (fun q => q.id == quizId) = some q₀) :
    (l.map (setStatusUpd quizId st)).find? (fun q => q.id == quizId)
      = some { q₀ with status := st } := by
  rw [find_map_pres (setStatusUpd quizId st) (fun q => q.id == quizId)
      (fun a => by simp [setStatusUpd_id]), h]
  have hid := List.find?_some h
  simp only at hid
  have hmap : (some q₀).map (setStatusUpd quizId st)
      = some (setStatusUpd quizId st q₀) := rfl
  rw [hmap, setStatusUpd, if_pos hid]

/-- Inversion of a successful `submitAnswer`: every guard passed, the new
Answer was appended, and the store was additionally quiz-finished exactly
when the auto-finish flag is set. -/
theorem submitAnswer_ok_inversion (powQ : ℚ → ℚ) (s : Store)
    (pin questionId participantId selectedOptionId : ℕ) (responseTimeMs : ℚ)
    (s₁ : Store) (r : SubmitResult)
    (h : submitAnswer powQ s pin questionId participantId selectedOptionId responseTimeMs
          = Except.ok (s₁, r)) :
    ∃ quiz question participant,
      findQuizByPin s pin = some quiz ∧
      quiz.status = QuizStatus.started ∧
      s.questions.find? (fun q => q.id == questionId) = some question ∧
      s.participants.find? (fun p => p.id == participantId) = some participant ∧
      participant.pin = pin ∧
      s.answers.find? (pairPred participantId questionId) = none ∧
      r.answer.participantId = participantId ∧
      r.answer.questionId = questionId ∧
      r.gameFinished = r.shouldAutoFinish ∧
      r.shouldAutoFinish
        = (decide (100 ≤ jsAbs r.tugStatus.position) && r.tugStatus.hasAnswers) ∧
      ((r.shouldAutoFinish = true ∧
          s₁ = { s with
                 answers := s.answers ++ [r.answer]
                 quizzes := s.quizzes.map (setStatusUpd quiz.id QuizStatus.finished) }) ∨
        (r.shouldAutoFinish = false ∧
          s₁ = { s with answers := s.answers ++ [r.answer] })) := by
  unfold submitAnswer at h
  split at h
  · simp at h
  next quiz hq =>
    split at h
    · simp at h
    next hst' =>
      have hst : quiz.status = QuizStatus.started := not_not.mp hst'
      split at h
      · simp at h
      next question hques =>
        split at h
        · simp at h
        next participant hpart =>
          split at h
          · simp at h
          next hpin' =>
            have hpin : participant.pin = pin := not_not.mp hpin'
            split at h
            next a hdup => simp at h
            next hdup =>
              split at h
              · simp at h
              next o hopt =>
                split at h
                · simp at h
                next correctId hcid =>
                  simp only [Except.ok.injEq, Prod.mk.injEq] at h
                  obtain ⟨hs₁, hr⟩ := h
                  subst hr
                  refine ⟨quiz, question, participant, hq, hst, hques, hpart, hpin, hdup,
                    rfl, rfl, rfl, rfl, ?_⟩
                  by_cases hfin :
                      (decide (100 ≤ jsAbs (calculateTugPosition powQ
                          { s with answers := s.answers ++
                            [{ participantId := participantId, questionId := questionId,
                               selectedOptionId := selectedOptionId,
                               isCorrect := correctId == selectedOptionId,
                               responseTimeMs := some responseTimeMs }] } quiz.id).position)
                        && (calculateTugPosition powQ
                          { s with answers := s.answers ++
                            [{ participantId := participantId, questionId := questionId,
                               selectedOptionId := selectedOptionId,
                               isCorrect := correctId == selectedOptionId,
                               responseTimeMs := some responseTimeMs }] } quiz.id).hasAnswers) = true
                  · left
                    rw [if_pos ⟨hfin, hst⟩] at hs₁
                    exact ⟨hfin, hs₁.symm⟩
                  · right
                    rw [if_neg (fun hc => hfin hc.1)] at hs₁
                    exact ⟨Bool.not_eq_true _ ▸ (Bool.eq_false_iff.mpr hfin), hs₁.symm⟩

/-- Monotonicity of the status rank through an id-keyed status overwrite,
provided the overwritten row only ever moves forward. -/
theorem statusRank_map_le (l : List QuizRec) (quizId : ℕ) (newSt : QuizStatus)
    (i : ℕ) (st st' : QuizStatus)
    (hmono : ∀ q₀, l.find? (fun q => q.id == quizId) = some q₀ →
      statusRank q₀.status ≤ statusRank newSt)
    (h : (l.find? (fun q => q.id == i)).map (fun q => q.status) = some st)
    (h' : ((l.map (setStatusUpd quizId newSt)).find? (fun q => q.id == i)).map
        (fun q => q.status) = some st') :
    statusRank st ≤ statusRank st' := by
  rw [find_map_pres (setStatusUpd quizId newSt) (fun q => q.id == i)
      (fun a => by simp [setStatusUpd_id])] at h'
  cases hfind : l.find? (fun q => q.id == i) with
  | none => rw [hfind] at h; simp at h
  | some q₀ =>
    rw [hfind] at h h'
    simp only [Option.map_some', Option.some.injEq] at h h'
    subst h
    rw [setStatusUpd] at h'
    by_cases hid : (q₀.id == quizId) = true
    · rw [if_pos hid] at h'
      have hpi := List.find?_some hfind
      simp only [beq_iff_eq] at hpi hid
      have hiq : i = quizId := by omega
      subst hiq
      have hm := hmono q₀ hfind
      have hst' : st' = newSt := by rw [← h']
      rw [hst']
      exact hm
    · rw [if_neg hid] at h'
      have hst' : st' = q₀.status := by rw [← h']
      rw [hst']

/-! Claim theorems. -/

/-- C1: for every pair of non-negative team scores and every hasAnswers
flag, the tug-of-war position computed by `updateTugPosition` lies in
[-100, 100], and the position returned by `calculateTugPosition` lies in
[-100, 100] for every store and quiz (any answer set), whatever the pow
parameter. -/
theorem tug_position_in_range (powQ : ℚ → ℚ) (t1 t2 : ℚ) (hA : Bool)
    (s : Store) (quizId : ℕ) (h1 : 0 ≤ t1) (h2 : 0 ≤ t2) :
    (-100 ≤ (updateTugPosition powQ t1 t2 hA).position ∧
      (updateTugPosition powQ t1 t2 hA).position ≤ 100) ∧
    (-100 ≤ (calculateTugPosition powQ s quizId).position ∧
      (calculateTugPosition powQ s quizId).position ≤ 100) :=
  ⟨updateTugPosition_position_bounds powQ t1 t2 hA,
    calculateTugPosition_position_bounds powQ s quizId⟩

/-- C1 witness: the bounds instantiated at the fixture submission store
and the scores 300 / 0. -/
theorem tug_position_in_range_witness :
    (0 : ℚ) ≤ 300 ∧ (0 : ℚ) ≤ 0 ∧
    ((-100 ≤ (updateTugPosition powId 300 0 true).position ∧
        (updateTugPosition powId 300 0 true).position ≤ 100) ∧
      (-100 ≤ (calculateTugPosition powId W2store1 1).position ∧
        (calculateTugPosition powId W2store1 1).position ≤ 100)) :=
  ⟨by decide, by decide,
    tug_position_in_range powId 300 0 true W2store1 1 (by decide) (by decide)⟩

/-- C2: on a successful `submitAnswer`, if the recomputed tug position's
absolute value reaches 100 and at least one answer exists, the quiz status
is set to finished and the `gameFinished` flag signals it to the caller;
otherwise the quiz status is left unchanged and the flag is false. -/
theorem submitAnswer_win_by_domination (powQ : ℚ → ℚ) (s : Store)
    (pin questionId participantId selectedOptionId : ℕ) (responseTimeMs : ℚ)
    (s₁ : Store) (r : SubmitResult) (qz : QuizRec)
    (hok : submitAnswer powQ s pin questionId participantId selectedOptionId responseTimeMs
          = Except.ok (s₁, r))
    (hqz : findQuizByPin s pin = some qz) :
    ((100 ≤ |r.tugStatus.position| ∧ r.tugStatus.hasAnswers = true) →
        r.gameFinished = true ∧ statusOf s₁ qz.id = some QuizStatus.finished) ∧
      (¬(100 ≤ |r.tugStatus.position| ∧ r.tugStatus.hasAnswers = true) →
        r.gameFinished = false ∧ statusOf s₁ qz.id = statusOf s qz.id) := by
  obtain ⟨quiz, question, participant, hq, hst, hques, hpart, hpin, hdup,
    hrp, hrq, hg, hsf, hdisj⟩ :=
    submitAnswer_ok_inversion powQ s pin questionId participantId selectedOptionId
      responseTimeMs s₁ r hok
  have hquiz : qz = quiz := by
    rw [hqz] at hq
    exact Option.some_injective _ hq
  subst hquiz
  have hPiff : (100 ≤ |r.tugStatus.position| ∧ r.tugStatus.hasAnswers = true)
      ↔ r.shouldAutoFinish = true := by
    rw [hsf, Bool.and_eq_true, decide_eq_true_iff, jsAbs_eq]
  constructor
  · intro hp
    have hfin : r.shouldAutoFinish = true := hPiff.mp hp
    cases hdisj with
    | inl hh =>
      refine ⟨hg.trans hfin, ?_⟩
      rw [hh.2]
      have hmem : qz ∈ s.quizzes := List.mem_of_find?_eq_some hq
      have hex : (s.quizzes.find? (fun q => q.id == qz.id)).isSome := by
        rw [List.find?_isSome]
        exact ⟨qz, hmem, by simp⟩
      obtain ⟨q₀, hq₀⟩ := Option.isSome_iff_exists.mp hex
      show ((s.quizzes.map (setStatusUpd qz.id QuizStatus.finished)).find?
          (fun q => q.id == qz.id)).map (fun q => q.status) = some QuizStatus.finished
      rw [find_map_setStatus s.quizzes qz.id QuizStatus.finished q₀ hq₀]
      rfl
    | inr hh =>
      rw [hh.1] at hfin
      simp at hfin
  · intro hnp
    have hfin : r.shouldAutoFinish = false := by
      cases hbv : r.shouldAutoFinish with
      | false => rfl
      | true => exact absurd (hPiff.mpr hbv) hnp
    cases hdisj with
    | inl hh =>
      rw [hh.1] at hfin
      simp at hfin
    | inr hh =>
      refine ⟨hg.trans hfin, ?_⟩
      rw [hh.2]
      rfl

/-- C2 witness: the fixture submission (position 75, no finish). -/
theorem submitAnswer_win_by_domination_witness :
    ((100 ≤ |W2res.tugStatus.position| ∧ W2res.tugStatus.hasAnswers = true) →
        W2res.gameFinished = true ∧ statusOf W2store1 1 = some QuizStatus.finished) ∧
      (¬(100 ≤ |W2res.tugStatus.position| ∧ W2res.tugStatus.hasAnswers = true) →
        W2res.gameFinished = false ∧ statusOf W2store1 1 = statusOf W2store 1) :=
  submitAnswer_win_by_domination powId W2store 111 10 20 100 5000 W2store1 W2res
    { id := 1, pin := 111, status := QuizStatus.started, creatorId := 9 }
    (by decide) (by decide)

/-- C3: after a successful submission for a (participant, question) pair,
exactly one Answer row for the pair exists; a second submission for the
same pair never succeeds — it fails with the duplicate-answer conflict
(BadRequest, the spec's `Conflict`) whenever the quiz is still started —
and, failing, persists nothing. -/
theorem duplicate_answer_conflict (powQ : ℚ → ℚ) (s : Store)
    (pin questionId participantId selectedOptionId oid₂ : ℕ)
    (responseTimeMs rt₂ : ℚ) (s₁ : Store) (r : SubmitResult)
    (hok : submitAnswer powQ s pin questionId participantId selectedOptionId responseTimeMs
          = Except.ok (s₁, r)) :
    countPairAnswers s₁ participantId questionId = 1 ∧
    isOkE (submitAnswer powQ s₁ pin questionId participantId oid₂ rt₂) = false ∧
    (quizStatusByPin s₁ pin = some QuizStatus.started →
      submitAnswer powQ s₁ pin questionId participantId oid₂ rt₂
        = Except.error ServiceError.alreadyAnswered) := by
  obtain ⟨quiz, question, participant, hq, hst, hques, hpart, hpin, hdup,
    hrp, hrq, hg, hsf, hdisj⟩ :=
    submitAnswer_ok_inversion powQ s pin questionId participantId selectedOptionId
      responseTimeMs s₁ r hok
  have hpa : pairPred participantId questionId r.answer = true := by
    unfold pairPred
    rw [hrp, hrq]
    simp
  have hfilnil : s.answers.filter (pairPred participantId questionId) = [] := by
    rw [List.filter_eq_nil_iff]
    intro a ha
    exact List.find?_eq_none.mp hdup a ha
  have hcount : ((s.answers ++ [r.answer]).filter
      (pairPred participantId questionId)).length = 1 := by
    rw [List.filter_append, hfilnil]
    simp [List.filter, hpa]
  have hdup2 : (s.answers ++ [r.answer]).find? (pairPred participantId questionId)
      = some r.answer := by
    rw [find_append_none _ _ _ hdup]
    simp [List.find?, hpa]
  rcases hdisj with ⟨hsf1, hs₁eq⟩ | ⟨hsf0, hs₁eq⟩
  · -- the first call finished the quiz: the second fails on status
    subst hs₁eq
    have hq2 : findQuizByPin
        { s with
          answers := s.answers ++ [r.answer]
          quizzes := s.quizzes.map (setStatusUpd quiz.id QuizStatus.finished) } pin
        = some (setStatusUpd quiz.id QuizStatus.finished quiz) := by
      have hqlist : List.find? (fun q => q.pin == pin) s.quizzes = some quiz := hq
      show (s.quizzes.map (setStatusUpd quiz.id QuizStatus.finished)).find?
          (fun q => q.pin == pin) = _
      rw [find_map_pres _ _ (fun a => by simp [setStatusUpd_pin]), hqlist]
      rfl
    have hstf : (setStatusUpd quiz.id QuizStatus.finished quiz).status
        = QuizStatus.finished := by
      simp [setStatusUpd]
    have h2nd : submitAnswer powQ
        { s with
          answers := s.answers ++ [r.answer]
          quizzes := s.quizzes.map (setStatusUpd quiz.id QuizStatus.finished) }
        pin questionId participantId oid₂ rt₂
        = Except.error ServiceError.gameNotStarted := by
      simp [submitAnswer, hq2, hstf]
    refine ⟨hcount, ?_, ?_⟩
    · rw [h2nd]
      rfl
    · intro hc
      rw [quizStatusByPin, hq2] at hc
      simp [hstf] at hc
  · -- no auto-finish: the second call hits the duplicate check
    subst hs₁eq
    have hq' : findQuizByPin { s with answers := s.answers ++ [r.answer] } pin
        = some quiz := hq
    have hques' : ({ s with answers := s.answers ++ [r.answer] } : Store).questions.find?
        (fun q => q.id == questionId) = some question := hques
    have hpart' : ({ s with answers := s.answers ++ [r.answer] } : Store).participants.find?
        (fun p => p.id == participantId) = some participant := hpart
    have hdup2' : ({ s with answers := s.answers ++ [r.answer] } : Store).answers.find?
        (pairPred participantId questionId) = some r.answer := hdup2
    have h2nd : submitAnswer powQ { s with answers := s.answers ++ [r.answer] }
        pin questionId participantId oid₂ rt₂
        = Except.error ServiceError.alreadyAnswered := by
      simp [submitAnswer, hq', hst, hques', hpart', hpin, hdup2']
    refine ⟨hcount, ?_, ?_⟩
    · rw [h2nd]
      rfl
    · intro hc
      exact h2nd

/-- C3 witness: resubmitting the fixture answer is rejected as a
duplicate and the pair still has exactly one Answer row. -/
theorem duplicate_answer_conflict_witness :
    countPairAnswers W2store1 20 10 = 1 ∧
    isOkE (submitAnswer powId W2store1 111 10 20 101 6000) = false ∧
    (quizStatusByPin W2store1 111 = some QuizStatus.started →
      submitAnswer powId W2store1 111 10 20 101 6000
        = Except.error ServiceError.alreadyAnswered) :=
  duplicate_answer_conflict powId W2store 111 10 20 100 101 5000 6000 W2store1 W2res
    (by decide)


/-- C6: with exactly one correct team-1 answer (response 5000 ms), no
team-2 answers and maxTimeMs = 30000: the average speed is 25, the team
score is 300, and `updateTugPosition` takes the `minScore == 0` branch and
returns position = 75 exactly, for every pow parameter. -/
theorem first_answer_position_75 (powQ : ℚ → ℚ) :
    calculateAverageSpeed
        [{ participantId := 20, questionId := 10, selectedOptionId := 100,
           isCorrect := true, responseTimeMs := some 5000 }] 30000 = 25 ∧
    calculateTeamScore 1 25 = 300 ∧
    (updateTugPosition powQ 300 0 true).position = 75 := by
  refine ⟨by decide, by decide, ?_⟩
  rw [updateTugPosition_pow_irrel powQ powId 300 0 true (by decide)]
  decide

/-- C10: `submitAnswer` never compares the resolved question's quiz with
the quiz resolved by PIN: a submission naming a question of any other quiz
(hforeign), with one of that question's own option ids, is accepted and
the Answer is persisted.  The hypothesis `hforeign` is never used by the
proof — no code path inspects it. -/
theorem submitAnswer_accepts_foreign_question (powQ : ℚ → ℚ) (s : Store)
    (pin questionId participantId selectedOptionId : ℕ) (responseTimeMs : ℚ)
    (quiz : QuizRec) (question : QuestionRec) (participant : ParticipantRec)
    (correctId : ℕ)
    (hq : findQuizByPin s pin = some quiz)
    (hst : quiz.status = QuizStatus.started)
    (hques : s.questions.find? (fun q => q.id == questionId) = some question)
    (hforeign : question.quizId ≠ quiz.id)
    (hpart : s.participants.find? (fun p => p.id == participantId) = some participant)
    (hpin : participant.pin = pin)
    (hdup : s.answers.find? (pairPred participantId questionId) = none)
    (hopt : selectedOptionId ∈ question.options)
    (hcid : question.correctAnswerId = some correctId) :
    isOkE (submitAnswer powQ s pin questionId participantId selectedOptionId
      responseTimeMs) = true ∧
    (submitAnswerStore powQ s pin questionId participantId selectedOptionId
        responseTimeMs).answers
      = s.answers ++
        [{ participantId := participantId, questionId := questionId,
           selectedOptionId := selectedOptionId,
           isCorrect := correctId == selectedOptionId,
           responseTimeMs := some responseTimeMs }] := by
  have hoptfind : question.options.find? (fun o => o == selectedOptionId)
      = some selectedOptionId := find_beq_self hopt
  have hrun : ∃ st rr,
      submitAnswer powQ s pin questionId participantId selectedOptionId responseTimeMs
        = Except.ok (st, rr) ∧
      st.answers = s.answers ++
        [{ participantId := participantId, questionId := questionId,
           selectedOptionId := selectedOptionId,
           isCorrect := correctId == selectedOptionId,
           responseTimeMs := some responseTimeMs }] := by
    unfold submitAnswer
    rw [hq]
    dsimp only
    rw [if_neg (by rw [hst]; simp)]
    rw [hques]
    dsimp only
    rw [hpart]
    dsimp only
    rw [if_neg (by rw [hpin]; simp)]
    rw [hdup]
    dsimp only
    rw [hoptfind]
    dsimp only
    rw [hcid]
    dsimp only
    refine ⟨_, _, rfl, ?_⟩
    split
    · rfl
    · rfl
  obtain ⟨st, rr, heq, hansw⟩ := hrun
  constructor
  · rw [heq]
    rfl
  · rw [submitAnswerStore, heq]
    exact hansw

/-- C10 witness: question 30 belongs to quiz 2, yet the submission to the
quiz with PIN 111 (quiz 1) is accepted and persisted. -/
theorem submitAnswer_accepts_foreign_question_witness :
    isOkE (submitAnswer powId W10store 111 30 20 300 5000) = true ∧
    (submitAnswerStore powId W10store 111 30 20 300 5000).answers
      = W10store.answers ++
        [{ participantId := 20, questionId := 30, selectedOptionId := 300,
           isCorrect := true, responseTimeMs := some 5000 }] :=
  submitAnswer_accepts_foreign_question powId W10store 111 30 20 300 5000
    { id := 1, pin := 111, status := QuizStatus.started, creatorId := 9 }
    { id := 30, quizId := 2, timeSeconds := 30, correctAnswerId := some 300,
      options := [300, 301], order := 0 }
    { id := 20, team := Team.team1, quizId := 1, pin := 111 }
    300 (by decide) (by decide) (by decide) (by decide) (by decide) (by decide)
    (by decide) (by decide) (by decide)

/-- C4: across every status-writing operation (`startQuiz`, `finishQuiz`,
and `submitAnswer`'s win-by-domination finish), every quiz's status only
moves forward in the order created → started → finished, never backward. -/
theorem status_forward_only (s s₁ : Store) (hstep : Step s s₁) (i : ℕ)
    (st st' : QuizStatus)
    (h : statusOf s i = some st) (h' : statusOf s₁ i = some st') :
    statusRank st ≤ statusRank st' := by
  cases hstep with
  | start s quizId uid s₁ q hops =>
    unfold startQuiz at hops
    split at hops
    · simp at hops
    next quiz₀ hq0 =>
      split at hops
      · simp at hops
      next huid =>
        split at hops
        · simp at hops
        next hcr' =>
          have hcr : quiz₀.status = QuizStatus.created := not_not.mp hcr'
          simp only [Except.ok.injEq, Prod.mk.injEq] at hops
          obtain ⟨hs₁, -⟩ := hops
          subst hs₁
          exact statusRank_map_le s.quizzes quizId QuizStatus.started i st st'
            (fun q₀ hf => by
              have hq0l : List.find? (fun q => q.id == quizId) s.quizzes
                  = some quiz₀ := hq0
              rw [hq0l] at hf
              obtain rfl := Option.some_injective _ hf.symm
              rw [hcr]
              decide)
            h h'
  | finish s quizId uid s₁ q hops =>
    unfold finishQuiz at hops
    split at hops
    · simp at hops
    next quiz₀ hq0 =>
      split at hops
      · simp at hops
      next huid =>
        simp only [Except.ok.injEq, Prod.mk.injEq] at hops
        obtain ⟨hs₁, -⟩ := hops
        subst hs₁
        exact statusRank_map_le s.quizzes quizId QuizStatus.finished i st st'
          (fun q₀ _ => by cases hqs : q₀.status <;> simp [statusRank])
          h h'
  | submit powQ s pin questionId participantId selectedOptionId responseTimeMs s₁ r hops =>
    obtain ⟨quiz, question, participant, hq, hst, hques, hpart, hpin, hdup,
      hrp, hrq, hg, hsf, hdisj⟩ :=
      submitAnswer_ok_inversion powQ s pin questionId participantId selectedOptionId
        responseTimeMs s₁ r hops
    rcases hdisj with ⟨hsf1, hs₁eq⟩ | ⟨hsf0, hs₁eq⟩
    · subst hs₁eq
      exact statusRank_map_le s.quizzes quiz.id QuizStatus.finished i st st'
        (fun q₀ _ => by cases hqs : q₀.status <;> simp [statusRank])
        h h'
    · subst hs₁eq
      have hsame : statusOf s i = some st' := h'
      rw [h] at hsame
      obtain rfl := Option.some_injective _ hsame.symm
      exact le_refl _

/-- C4 witness: `startQuiz` moves the fixture quiz created → started. -/
theorem status_forward_only_witness :
    statusRank QuizStatus.created ≤ statusRank QuizStatus.started :=
  status_forward_only W4store W4store1
    (Step.start W4store 1 (some 9) W4store1
      { id := 1, pin := 111, status := QuizStatus.started, creatorId := 9 }
      (by decide))
    1 QuizStatus.created QuizStatus.started (by decide) (by decide)

theorem setStatusUpd_idem (quizId : ℕ) (st : QuizStatus) (q : QuizRec) :
    setStatusUpd quizId st (setStatusUpd quizId st q) = setStatusUpd quizId st q := by
  by_cases hid : (q.id == quizId) = true
  · simp [setStatusUpd, hid]
  · simp [setStatusUpd, hid]

/-- C5: when the requester is the quiz's creator, `finishQuiz` succeeds
and sets status = finished unconditionally, whatever the current status;
it is idempotent: run again on the already-finished result it succeeds and
leaves the store unchanged. -/
theorem finishQuiz_unconditional_idempotent (s : Store) (quizId : ℕ)
    (uid : Option ℕ) (quiz : QuizRec)
    (hq : findQuizById s quizId = some quiz)
    (hu : uid = some quiz.creatorId) :
    isOkE (finishQuiz s quizId uid) = true ∧
    statusOf (finishApply s quizId uid) quizId = some QuizStatus.finished ∧
    isOkE (finishQuiz (finishApply s quizId uid) quizId uid) = true ∧
    finishApply (finishApply s quizId uid) quizId uid = finishApply s quizId uid := by
  have hqlist : List.find? (fun q => q.id == quizId) s.quizzes = some quiz := hq
  have hrun : finishQuiz s quizId uid
      = Except.ok
          ({ s with quizzes := s.quizzes.map (setStatusUpd quizId QuizStatus.finished) },
            { quiz with status := QuizStatus.finished }) := by
    unfold finishQuiz
    rw [hq]
    dsimp only
    rw [if_neg (by rw [hu]; simp)]
  have happ : finishApply s quizId uid
      = { s with quizzes := s.quizzes.map (setStatusUpd quizId QuizStatus.finished) } := by
    rw [finishApply, hrun]
  have hq2 : findQuizById
      { s with quizzes := s.quizzes.map (setStatusUpd quizId QuizStatus.finished) } quizId
      = some { quiz with status := QuizStatus.finished } := by
    show (s.quizzes.map (setStatusUpd quizId QuizStatus.finished)).find?
        (fun q => q.id == quizId) = _
    exact find_map_setStatus s.quizzes quizId QuizStatus.finished quiz hqlist
  have hrun2 : finishQuiz
      { s with quizzes := s.quizzes.map (setStatusUpd quizId QuizStatus.finished) }
      quizId uid
      = Except.ok
          ({ s with quizzes := ((s.quizzes.map (setStatusUpd quizId QuizStatus.finished)).map (setStatusUpd quizId QuizStatus.finished)) },
            { quiz with status := QuizStatus.finished }) := by
    unfold finishQuiz
    rw [hq2]
    dsimp only
    rw [if_neg (by rw [hu]; simp)]
  have hcomp : setStatusUpd quizId QuizStatus.finished ∘ setStatusUpd quizId QuizStatus.finished
      = setStatusUpd quizId QuizStatus.finished :=
    funext (fun q => setStatusUpd_idem quizId QuizStatus.finished q)
  have hidem : (s.quizzes.map (setStatusUpd quizId QuizStatus.finished)).map
      (setStatusUpd quizId QuizStatus.finished)
      = s.quizzes.map (setStatusUpd quizId QuizStatus.finished) := by
    rw [List.map_map, hcomp]
  refine ⟨by rw [hrun]; rfl, ?_, ?_, ?_⟩
  · rw [happ]
    show ((s.quizzes.map (setStatusUpd quizId QuizStatus.finished)).find?
        (fun q => q.id == quizId)).map (fun q => q.status) = some QuizStatus.finished
    rw [find_map_setStatus s.quizzes quizId QuizStatus.finished quiz hqlist]
    rfl
  · rw [happ, hrun2]
    rfl
  · rw [happ]
    rw [finishApply, hrun2]
    simp only [hidem]

/-- C5 witness: finishing the started fixture quiz, twice. -/
theorem finishQuiz_unconditional_idempotent_witness :
    isOkE (finishQuiz W4store1 1 (some 9)) = true ∧
    statusOf (finishApply W4store1 1 (some 9)) 1 = some QuizStatus.finished ∧
    isOkE (finishQuiz (finishApply W4store1 1 (some 9)) 1 (some 9)) = true ∧
    finishApply (finishApply W4store1 1 (some 9)) 1 (some 9)
      = finishApply W4store1 1 (some 9) :=
  finishQuiz_unconditional_idempotent W4store1 1 (some 9)
    { id := 1, pin := 111, status := QuizStatus.started, creatorId := 9 }
    (by decide) (by decide)

/-- C7: `handleStartQuestion` with index > 0 on a started quiz whose
question index-1 has a recorded (nonzero) start time fails with the
"too early" condition while the previous question's display duration has
not elapsed, and passes the gate (the request succeeds) once it has. -/
theorem startQuestion_too_early_gate (s : Store) (g : GatewayState) (c : ClientData)
    (pin idx : ℕ) (now t0 : ℤ) (quiz : QuizRec) (prevQ : QuestionRec)
    (hq : findQuizByPin s pin = some quiz)
    (hrole : c.role = some Role.teacher)
    (huid : c.userId = some quiz.creatorId)
    (hne : (questionsOfQuiz s quiz.id).isEmpty = false)
    (hst : quiz.status = QuizStatus.started)
    (hidx : idx < (questionsOfQuiz s quiz.id).length)
    (hpos : 0 < idx)
    (hprev : (questionsOfQuiz s quiz.id)[idx - 1]? = some prevQ)
    (hT : prevQ.timeSeconds ≠ 0)
    (ht0 : g.questionStartTimes quiz.id (idx - 1) = some t0)
    (ht0ne : t0 ≠ 0) :
    (now - t0 < (prevQ.timeSeconds : ℤ) * 1000 →
      isTooEarly (handleStartQuestion s g c pin idx now).1 = true) ∧
    ((prevQ.timeSeconds : ℤ) * 1000 ≤ now - t0 →
      (handleStartQuestion s g c pin idx now).1 = StartQuestionRes.ok) := by
  constructor
  · intro hlt
    have hte : tooEarlyCheck g quiz.id (questionsOfQuiz s quiz.id) idx now
        = some ⌈((((prevQ.timeSeconds : ℤ) * 1000 - (now - t0) : ℤ)) : ℚ) / 1000⌉ := by
      unfold tooEarlyCheck
      rw [if_pos hpos, hprev]
      dsimp only
      rw [if_neg hT, ht0]
      dsimp only
      rw [if_neg ht0ne, if_pos hlt]
    have hres : (handleStartQuestion s g c pin idx now).1
        = StartQuestionRes.errTooEarly
            ⌈((((prevQ.timeSeconds : ℤ) * 1000 - (now - t0) : ℤ)) : ℚ) / 1000⌉ := by
      unfold handleStartQuestion
      rw [hq]
      dsimp only
      rw [if_neg (by rw [hrole]; simp), if_neg (by rw [huid]; simp)]
      dsimp only
      rw [if_neg (by rw [hne]; simp), if_neg (by rw [hst]; simp),
        if_neg (by omega), hte]
    rw [hres]
    rfl
  · intro hge
    have hte : tooEarlyCheck g quiz.id (questionsOfQuiz s quiz.id) idx now = none := by
      unfold tooEarlyCheck
      rw [if_pos hpos, hprev]
      dsimp only
      rw [if_neg hT, ht0]
      dsimp only
      rw [if_neg ht0ne, if_neg (not_lt.mpr hge)]
    have hqs : (questionsOfQuiz s quiz.id)[idx]?
        = some ((questionsOfQuiz s quiz.id)[idx]) :=
      List.getElem?_eq_getElem hidx
    have hres : (handleStartQuestion s g c pin idx now).1 = StartQuestionRes.ok := by
      unfold handleStartQuestion
      rw [hq]
      dsimp only
      rw [if_neg (by rw [hrole]; simp), if_neg (by rw [huid]; simp)]
      dsimp only
      rw [if_neg (by rw [hne]; simp), if_neg (by rw [hst]; simp),
        if_neg (by omega), hte, hqs]
    exact hres

/-- C7 witness: question 0 started at t=1000 with 30 s duration; a
start-question for index 1 at t=5000 is too early. -/
theorem startQuestion_too_early_gate_witness :
    (5000 - 1000 < ((30 : ℕ) : ℤ) * 1000 →
      isTooEarly (handleStartQuestion W7store W7g W7c 222 1 5000).1 = true) ∧
    (((30 : ℕ) : ℤ) * 1000 ≤ 5000 - 1000 →
      (handleStartQuestion W7store W7g W7c 222 1 5000).1 = StartQuestionRes.ok) :=
  startQuestion_too_early_gate W7store W7g W7c 222 1 5000 1000
    { id := 1, pin := 222, status := QuizStatus.started, creatorId := 9 }
    { id := 20, quizId := 1, timeSeconds := 30, correctAnswerId := some 200,
      options := [200, 201], order := 0 }
    (by decide) (by decide) (by decide) (by decide) (by decide) (by decide)
    (by decide) (by decide) (by decide) (by decide) (by decide)

/-- C8: a fired auto-advance timer whose quiz is no longer `started`
performs no state change — the store (quiz status and answers) and the
recorded question start times are left exactly as they were — and emits no
broadcast at all (in particular no duplicate finish); it only discards its
own timer entry. -/
theorem autoAdvance_stale_noop (powQ : ℚ → ℚ) (s : Store) (g : GatewayState)
    (quizId pin idx : ℕ) (userId : Option ℕ) (now : ℤ) (quiz : QuizRec)
    (hq : findQuizByPin s pin = some quiz)
    (hst : quiz.status ≠ QuizStatus.started) :
    (autoAdvanceQuestion powQ s g quizId pin idx userId now).1 = s ∧
    (autoAdvanceQuestion powQ s g quizId pin idx userId now).2.2 = [] ∧
    ((autoAdvanceQuestion powQ s g quizId pin idx userId now).2.1).questionStartTimes
      = g.questionStartTimes := by
  have hres : autoAdvanceQuestion powQ s g quizId pin idx userId now
      = (s, deleteTimer g quizId, []) := by
    unfold autoAdvanceQuestion
    rw [hq]
    dsimp only
    rw [if_pos hst]
  rw [hres]
  exact ⟨rfl, rfl, rfl⟩

/-- C8 witness: the timer for question 0 fires on the already-finished
fixture quiz. -/
theorem autoAdvance_stale_noop_witness :
    (autoAdvanceQuestion powId W8store W8g 1 444 0 (some 9) 99999).1 = W8store ∧
    (autoAdvanceQuestion powId W8store W8g 1 444 0 (some 9) 99999).2.2 = [] ∧
    ((autoAdvanceQuestion powId W8store W8g 1 444 0 (some 9) 99999).2.1).questionStartTimes
      = W8g.questionStartTimes :=
  autoAdvance_stale_noop powId W8store W8g 1 444 0 (some 9) 99999
    { id := 1, pin := 444, status := QuizStatus.finished, creatorId := 9 }
    (by decide) (by decide)

/-- C9 counterexample: a teacher join with a non-creator identity (user 7,
creator 9) is rejected, yet the SAME connection then successfully executes
the teacher-only finish-question action — the handler returns success and
the question-finished broadcast goes to the room — because
`handleJoinQuiz` tags the socket with role teacher before the creator
check and `handleFinishQuestion` never re-checks the creator. -/
theorem teacher_join_unauthorized_counterexample :
    (handleJoinQuiz W9store { role := none, userId := none, pin := none, participantId := none }
        333 Role.teacher (some 7) none).1 = JoinRes.notCreator ∧
    (handleFinishQuestion powId W9store W8g
        (handleJoinQuiz W9store { role := none, userId := none, pin := none, participantId := none }
          333 Role.teacher (some 7) none).2 333 40).1
      = FinishQuestionRes.ok false ∧
    Event.questionFinished 40 ∈
      (handleFinishQuestion powId W9store W8g
        (handleJoinQuiz W9store { role := none, userId := none, pin := none, participantId := none }
          333 Role.teacher (some 7) none).2 333 40).2.2.2 := by
  refine ⟨by decide, by decide, by decide⟩

/-- C9 amended: a mismatched teacher join is rejected with an error, but
the connection keeps role = teacher; the five teacher-only actions that
re-check the creator identity (start-quiz, start-question, finish-quiz,
get-results, get-participants) still fail Forbidden for the mismatched
identity, while finish-question — which has no creator check — succeeds
and broadcasts question-finished to the room (here when the quiz carries
no active timer, so no auto-finish path runs). -/
theorem mismatched_teacher_join_partial_auth (powQ : ℚ → ℚ) (s : Store)
    (g : GatewayState) (c : ClientData) (pin u : ℕ) (pid : Option ℕ)
    (idx : ℕ) (now : ℤ) (qid : ℕ) (quiz : QuizRec)
    (hq : findQuizByPin s pin = some quiz)
    (hid : findQuizById s quiz.id = some quiz)
    (hu : u ≠ quiz.creatorId)
    (htimer : g.questionTimers quiz.id = none) :
    (handleJoinQuiz s c pin Role.teacher (some u) pid).1 = JoinRes.notCreator ∧
    ((handleJoinQuiz s c pin Role.teacher (some u) pid).2).role = some Role.teacher ∧
    (handleStartQuiz s (handleJoinQuiz s c pin Role.teacher (some u) pid).2
        pin quiz.id (some u)).1 = GwRes.svcError ServiceError.forbidden ∧
    (handleStartQuestion s g (handleJoinQuiz s c pin Role.teacher (some u) pid).2
        pin idx now).1 = StartQuestionRes.errNotCreatorRole ∧
    (handleFinishQuiz powQ s g (handleJoinQuiz s c pin Role.teacher (some u) pid).2
        pin quiz.id (some u)).1 = GwRes.svcError ServiceError.forbidden ∧
    handleGetResults powQ s (handleJoinQuiz s c pin Role.teacher (some u) pid).2
        quiz.id (some u) = GwRes.svcError ServiceError.forbidden ∧
    handleGetParticipants s (handleJoinQuiz s c pin Role.teacher (some u) pid).2
        pin (some u) = GwRes.svcError ServiceError.forbidden ∧
    (handleFinishQuestion powQ s g (handleJoinQuiz s c pin Role.teacher (some u) pid).2
        pin qid).1 = FinishQuestionRes.ok false ∧
    Event.questionFinished qid ∈
      (handleFinishQuestion powQ s g (handleJoinQuiz s c pin Role.teacher (some u) pid).2
        pin qid).2.2.2 := by
  have hjoin : handleJoinQuiz s c pin Role.teacher (some u) pid
      = (JoinRes.notCreator,
          { c with
            pin := some pin
            role := some Role.teacher
            userId := some u
            participantId := pid }) := by
    unfold handleJoinQuiz
    rw [hq]
    dsimp only
    rw [if_pos (fun hcon => hu hcon.symm)]
  have hstart : startQuiz s quiz.id (some u) = Except.error ServiceError.forbidden := by
    unfold startQuiz
    rw [hid]
    dsimp only
    rw [if_pos (by simp [hu])]
  have hfinsvc : finishQuiz s quiz.id (some u) = Except.error ServiceError.forbidden := by
    unfold finishQuiz
    rw [hid]
    dsimp only
    rw [if_pos (by simp [hu])]
  have hres : getResults powQ s quiz.id (some u) = Except.error ServiceError.forbidden := by
    unfold getResults
    rw [hid]
    dsimp only
    rw [if_pos (by simp [hu])]
  have hpart : getParticipantsByPin s pin (some u) = Except.error ServiceError.forbidden := by
    unfold getParticipantsByPin
    rw [hq]
    dsimp only
    rw [if_pos (by simp [hu])]
  rw [hjoin]
  dsimp only
  refine ⟨rfl, rfl, ?_, ?_, ?_, ?_, ?_, ?_, ?_⟩
  · unfold handleStartQuiz
    rw [if_neg (by simp), hstart]
  · unfold handleStartQuestion
    rw [hq]
    dsimp only
    rw [if_neg (by simp), if_pos (by simp [hu])]
  · unfold handleFinishQuiz
    rw [if_neg (by simp), hfinsvc]
  · unfold handleGetResults
    rw [if_neg (by simp), hres]
  · unfold handleGetParticipants
    rw [if_neg (by simp), hpart]
  · unfold handleFinishQuestion
    rw [if_neg (by simp), hq]
    dsimp only
    rw [htimer]
    dsimp only
    rw [if_neg (by simp)]
  · unfold handleFinishQuestion
    rw [if_neg (by simp), hq]
    dsimp only
    rw [htimer]
    dsimp only
    rw [if_neg (by simp)]
    simp

/-- C9 witness for the amended claim, at the join fixture. -/
theorem mismatched_teacher_join_partial_auth_witness :
    (handleJoinQuiz W9store { role := none, userId := none, pin := none, participantId := none }
        333 Role.teacher (some 7) none).1 = JoinRes.notCreator ∧
    ((handleJoinQuiz W9store { role := none, userId := none, pin := none, participantId := none }
        333 Role.teacher (some 7) none).2).role = some Role.teacher ∧
    (handleStartQuiz W9store
        (handleJoinQuiz W9store { role := none, userId := none, pin := none, participantId := none }
          333 Role.teacher (some 7) none).2 333 1 (some 7)).1
      = GwRes.svcError ServiceError.forbidden ∧
    (handleStartQuestion W9store W8g
        (handleJoinQuiz W9store { role := none, userId := none, pin := none, participantId := none }
          333 Role.teacher (some 7) none).2 333 0 2000).1
      = StartQuestionRes.errNotCreatorRole ∧
    (handleFinishQuiz powId W9store W8g
        (handleJoinQuiz W9store { role := none, userId := none, pin := none, participantId := none }
          333 Role.teacher (some 7) none).2 333 1 (some 7)).1
      = GwRes.svcError ServiceError.forbidden ∧
    handleGetResults powId W9store
        (handleJoinQuiz W9store { role := none, userId := none, pin := none, participantId := none }
          333 Role.teacher (some 7) none).2 1 (some 7)
      = GwRes.svcError ServiceError.forbidden ∧
    handleGetParticipants W9store
        (handleJoinQuiz W9store { role := none, userId := none, pin := none, participantId := none }
          333 Role.teacher (some 7) none).2 333 (some 7)
      = GwRes.svcError ServiceError.forbidden ∧
    (handleFinishQuestion powId W9store W8g
        (handleJoinQuiz W9store { role := none, userId := none, pin := none, participantId := none }
          333 Role.teacher (some 7) none).2 333 41).1 = FinishQuestionRes.ok false ∧
    Event.questionFinished 41 ∈
      (handleFinishQuestion powId W9store W8g
        (handleJoinQuiz W9store { role := none, userId := none, pin := none, participantId := none }
          333 Role.teacher (some 7) none).2 333 41).2.2.2 :=
  mismatched_teacher_join_partial_auth powId W9store W8g
    { role := none, userId := none, pin := none, participantId := none }
    333 7 none 0 2000 41
    { id := 1, pin := 333, status := QuizStatus.started, creatorId := 9 }
    (by decide) (by decide) (by decide) (by decide)

end QuizServer
